import Mathlib

/-!
Shallow embedding of the crypto-checkout widget's core logic.

Sources embedded here:
* the checkout page (`Home`, src/unnamed/part_002): pay/receive amount
  handlers with their 300 ms `setTimeout` recomputations, wallet selection
  and the `validateForm`/`handleConvert` submission gate;
* the recipient-details page (`RecipientDetails`, src/unnamed/part_003):
  bank/contact two-step form, `handleAccountNumberChange` verification,
  `validateBankForm`, `validateEmailForm`, `handleNext`;
* `src/app/lib/utils.ts`: `calculateExchangeRate`, `calculateInverseRate`;
* `src/app/constants/design-tokens.ts`: `EXCHANGE_RATES`.

Modelling conventions:
* JavaScript numbers are modelled as exact rationals (`ℚ`), with `none`
  standing for `NaN` on the parsing side.  Every concrete computation the
  theorems below evaluate is exact in IEEE doubles, so the rational model
  agrees with the JavaScript semantics on those inputs.
* `setTimeout` callbacks are modelled as an explicit FIFO queue of pending
  timers in the state; a `fire` event runs the oldest pending callback.
  All traces used below schedule timers of a single kind at a time (the
  two conversion timers share the same 300 ms delay), so FIFO firing
  matches the browser's timer ordering on those traces.
* React `useState` state is gathered into one record per page; each event
  handler becomes a state-transition function.
-/

/-- Numeric value of a list of decimal digit characters, most significant
first (the empty list yields 0). -/
def digitsVal (l : List Char) : ℕ :=
  l.foldl (fun a c => 10 * a + (c.toNat - '0'.toNat)) 0

/-- Ten to an integer power, as a rational. -/
def pow10Z (e : ℤ) : ℚ :=
  if 0 ≤ e then ((10 : ℚ) ^ e.toNat) else 1 / (10 : ℚ) ^ (-e).toNat

/-- Value of an exponent suffix after the `e`/`E` of a JavaScript float
literal: optional sign then digits; a missing digit run contributes 0
(JavaScript backs off to the longest valid prefix, which then carries no
exponent). -/
def readExpVal (l : List Char) : ℤ :=
  match l with
  | '-' :: t => -(Int.ofNat (digitsVal (t.takeWhile Char.isDigit)))
  | '+' :: t => Int.ofNat (digitsVal (t.takeWhile Char.isDigit))
  | _ => Int.ofNat (digitsVal (l.takeWhile Char.isDigit))

/-- Model of JavaScript `parseFloat`: skip leading whitespace, optional
sign, integer digits, optional `.` plus fraction digits, optional
exponent; `none` models `NaN` (no numeric prefix at all).  The `Infinity`
literal and exotic Unicode whitespace are not modelled; no claim below
depends on them. -/
def jsParseFloat (s : String) : Option ℚ :=
  let l0 := s.toList.dropWhile Char.isWhitespace
  let sign : ℚ := match l0 with | '-' :: _ => -1 | _ => 1
  let l1 := match l0 with | '-' :: t => t | '+' :: t => t | _ => l0
  let intDs := l1.takeWhile Char.isDigit
  let l2 := l1.dropWhile Char.isDigit
  let fracDs := match l2 with | '.' :: t => t.takeWhile Char.isDigit | _ => []
  let l3 := match l2 with | '.' :: t => t.dropWhile Char.isDigit | _ => l2
  if intDs.isEmpty && fracDs.isEmpty then none
  else
    let mant : ℚ := (digitsVal intDs : ℚ) + (digitsVal fracDs : ℚ) / (10 : ℚ) ^ fracDs.length
    let e : ℤ := match l3 with
      | 'e' :: t => readExpVal t
      | 'E' :: t => readExpVal t
      | _ => 0
    some (sign * mant * pow10Z e)

/-- Nearest natural number to a nonnegative rational, ties rounded up
(ECMAScript `toFixed` picks the larger candidate on ties). -/
def roundHalfUpNat (q : ℚ) : ℕ :=
  (2 * q.num.toNat + q.den) / (2 * q.den)

/-- Left-pad a string with `'0'` up to length `d`. -/
def zeroPad (d : ℕ) (s : String) : String :=
  String.mk (List.replicate (d - s.length) '0') ++ s

/-- `toFixed` for a nonnegative rational: decimal expansion with exactly
`d` fraction digits. -/
def toFixedPos (d : ℕ) (q : ℚ) : String :=
  let m := roundHalfUpNat (q * (10 : ℚ) ^ d)
  Nat.repr (m / 10 ^ d) ++ "." ++ zeroPad d (Nat.repr (m % 10 ^ d))

/-- Model of JavaScript `Number.prototype.toFixed` on finite values
(ECMAScript: emit `-` for negative input, then round `|x| * 10^d` to the
nearest integer, larger one on ties). -/
def toFixed (d : ℕ) (q : ℚ) : String :=
  if q < 0 then "-" ++ toFixedPos d (-q) else toFixedPos d q

/-- JavaScript `a || b` on strings: the empty string is the only falsy
string. -/
def jsOrString (s d : String) : String :=
  if s = "" then d else s

/-- Conversion result written by `handlePayValueChange`'s timer callback:
`(parseFloat(newValue || "0") * 3500).toFixed(2)`.  Note: the page uses the
literal constant 3500, not the `EXCHANGE_RATES` table, and raw `parseFloat`,
not `safeParseFloat`; a `NaN` parse renders as the string `"NaN"`. -/
def convertPay (v : String) : String :=
  match jsParseFloat (jsOrString v "0") with
  | none => "NaN"
  | some q => toFixed 2 (q * 3500)

/-- Conversion result written by `handleReceiveValueChange`'s timer
callback: `(parseFloat(newValue || "0") / 3500).toFixed(4)`. -/
def convertReceive (v : String) : String :=
  match jsParseFloat (jsOrString v "0") with
  | none => "NaN"
  | some q => toFixed 4 (q / 3500)

/-- A pending `setTimeout` callback on the checkout page.  Each conversion
callback captures the edited string value at scheduling time. -/
inductive HomeTimer
  | payCalc (v : String)
  | receiveCalc (v : String)
  | convertNav
deriving DecidableEq

/-- Validation errors of the checkout page (`errors` state). -/
structure HomeErrors where
  payFrom : Option String
  payTo : Option String
deriving DecidableEq

/-- The `useState` state of the checkout page `Home`, plus the queue of
pending timers and the route pushed on conversion success. -/
structure HomeState where
  payValue : String
  receiveValue : String
  payCurrency : String
  receiveCurrency : String
  payFrom : String
  payTo : String
  isCalculating : Bool
  isConverting : Bool
  errors : HomeErrors
  pending : List HomeTimer
  navTarget : Option String
deriving DecidableEq

/-- Initial state of the checkout page (the `useState` initial values). -/
def homeInit : HomeState :=
  { payValue := "1.00", receiveValue := "1.00", payCurrency := "ETH",
    receiveCurrency := "NGN", payFrom := "", payTo := "",
    isCalculating := false, isConverting := false,
    errors := ⟨none, none⟩, pending := [], navTarget := none }

/-- `validateForm` of the checkout page: requires both wallet selections,
returning the freshly computed error record (the page then stores it
wholesale with `setErrors`). -/
def homeValidateForm (s : HomeState) : HomeErrors :=
  { payFrom := if s.payFrom = "" then some "Please select a wallet to pay from" else none,
    payTo := if s.payTo = "" then some "Please select a wallet to pay to" else none }

/-- Whether an error record has no entries (`Object.keys(newErrors).length
=== 0`; keys are only assigned when an error exists). -/
def homeErrorsEmpty (e : HomeErrors) : Bool :=
  e.payFrom.isNone && e.payTo.isNone

/-- UI events of the checkout page.  `fire` runs the oldest pending timer
callback. -/
inductive HomeEvent
  | editPay (v : String)
  | editReceive (v : String)
  | setPayCurrency (v : String)
  | setReceiveCurrency (v : String)
  | selectPayFrom (v : String)
  | selectPayTo (v : String)
  | convert
  | fire

/-- Effect of the oldest pending timer callback (`fire`): a `payCalc v`
callback writes `convertPay v` into `receiveValue` and resets
`isCalculating`; symmetrically for `receiveCalc`; the `handleConvert`
timer pushes the recipient-details route. -/
def homeFire (s : HomeState) : HomeState :=
  match s.pending with
  | [] => s
  | HomeTimer.payCalc v :: rest =>
      { s with receiveValue := convertPay v, isCalculating := false, pending := rest }
  | HomeTimer.receiveCalc v :: rest =>
      { s with payValue := convertReceive v, isCalculating := false, pending := rest }
  | HomeTimer.convertNav :: rest =>
      { s with navTarget := some "/recipient-details", pending := rest }

/-- One step of the checkout page: each event handler of `Home`, embedded
directly (`handlePayValueChange`, `handleReceiveValueChange`, the currency
`Select` handlers, the wallet `Select` handlers with their per-field error
clearing, and `handleConvert`). -/
def homeStep (s : HomeState) : HomeEvent → HomeState
  | HomeEvent.editPay v =>
      { s with payValue := v, isCalculating := true,
               pending := s.pending ++ [HomeTimer.payCalc v] }
  | HomeEvent.editReceive v =>
      { s with receiveValue := v, isCalculating := true,
               pending := s.pending ++ [HomeTimer.receiveCalc v] }
  | HomeEvent.setPayCurrency v => { s with payCurrency := v }
  | HomeEvent.setReceiveCurrency v => { s with receiveCurrency := v }
  | HomeEvent.selectPayFrom v =>
      { s with payFrom := v, errors := { s.errors with payFrom := none } }
  | HomeEvent.selectPayTo v =>
      { s with payTo := v, errors := { s.errors with payTo := none } }
  | HomeEvent.convert =>
      let e := homeValidateForm s
      if homeErrorsEmpty e then
        { s with errors := e, isConverting := true,
                 pending := s.pending ++ [HomeTimer.convertNav] }
      else { s with errors := e }
  | HomeEvent.fire => homeFire s

/-- Run a sequence of checkout-page events from a state. -/
def homeRun (s : HomeState) (es : List HomeEvent) : HomeState :=
  es.foldl homeStep s

/-- The two steps of the recipient-details form (`formType` state,
`"bank" | "email"`; the spec calls them Bank and Contact). -/
inductive RStep
  | bank
  | contact
deriving DecidableEq

/-- A pending `setTimeout` callback on the recipient-details page. -/
inductive RTimer
  | verify
  | advanceBank
  | submitNav
deriving DecidableEq

/-- Validation errors of the recipient-details page (`errors` state);
`none` models an absent / `undefined` entry. -/
structure RErrors where
  bank : Option String
  accountNumber : Option String
  email : Option String
  phoneNumber : Option String
deriving DecidableEq

/-- Error record with no entries. -/
def rNoErrors : RErrors :=
  ⟨none, none, none, none⟩

/-- The `useState` state of the recipient-details page, plus pending
timers and the route pushed on final submission. -/
structure RState where
  formType : RStep
  selectedBank : String
  accountNumber : String
  accountName : String
  email : String
  phoneNumber : String
  isProcessing : Bool
  isVerifying : Bool
  errors : RErrors
  pending : List RTimer
  navTarget : Option String
deriving DecidableEq

/-- Initial state of the recipient-details page, exactly as the `useState`
initial values have it — note `accountName` starts as the canned value
`"ODUTUGA GBEKE"`, not empty. -/
def rInit : RState :=
  { formType := RStep.bank, selectedBank := "", accountNumber := "",
    accountName := "ODUTUGA GBEKE", email := "", phoneNumber := "",
    isProcessing := false, isVerifying := false, errors := rNoErrors,
    pending := [], navTarget := none }

/-- Count of decimal-digit characters of a string (the "normalized digit
length" the spec speaks about).  The page itself never computes this. -/
def digitCount (s : String) : ℕ :=
  (s.toList.filter Char.isDigit).length

/-- True when each character of the list is non-whitespace (the `[^\s@]`
character classes exclude whitespace; absence of `@` is enforced
separately).  JavaScript's `\s` also covers exotic Unicode spaces, which
`Char.isWhitespace` approximates; no claim below depends on those. -/
def noWsChars (l : List Char) : Bool :=
  l.all (fun c => !c.isWhitespace)

/-- True when the list has a `'.'` at some interior position (neither
first nor last). -/
def interiorDot (l : List Char) : Bool :=
  ((l.drop 1).dropLast).contains '.'

/-- Model of the test of the regex `^[^\s@]+@[^\s@]+\.[^\s@]+$` used for
e-mail validation: exactly one `@`; a nonempty whitespace-free local
part; a whitespace-free domain that can be split as `[^\s@]+ "." [^\s@]+`,
which holds exactly when it carries a dot at an interior position. -/
def emailTest (s : String) : Bool :=
  match s.splitOn "@" with
  | [loc, dom] =>
      !loc.isEmpty && noWsChars loc.toList && noWsChars dom.toList && interiorDot dom.toList
  | _ => false

/-- `validateBankForm` of the recipient-details page: requires a bank
selection and an account number, the latter rejected below 10 characters
with the "at least 10 digits" message; returns the freshly computed error
record (stored wholesale with `setErrors`). -/
def validateBankForm (s : RState) : RErrors :=
  { bank := if s.selectedBank = "" then some "Please select a bank" else none,
    accountNumber :=
      if s.accountNumber = "" then some "Account number is required"
      else if s.accountNumber.length < 10 then some "Account number must be at least 10 digits"
      else none,
    email := none, phoneNumber := none }

/-- `validateEmailForm` of the recipient-details page: e-mail must be
nonempty and match the e-mail regex; the phone number must be nonempty
and is rejected only when its raw character length is below 7 (there is
no upper bound and no digit extraction in this validator). -/
def validateEmailForm (s : RState) : RErrors :=
  { bank := none, accountNumber := none,
    email :=
      if s.email = "" then some "Email is required"
      else if !emailTest s.email then some "Please enter a valid email"
      else none,
    phoneNumber :=
      if s.phoneNumber = "" then some "Phone number is required"
      else if s.phoneNumber.length < 7 then some "Please enter a valid phone number"
      else none }

/-- Whether an error record has no entries (`Object.keys(newErrors).length
=== 0`; in the page keys are only assigned when an error exists). -/
def rErrorsEmpty (e : RErrors) : Bool :=
  e.bank.isNone && e.accountNumber.isNone && e.email.isNone && e.phoneNumber.isNone

/-- `handleAccountNumberChange`: store the value, clear this field's
error, and when the raw character length is exactly 10 start verification
(clear `accountName`, set `isVerifying`, schedule the 600 ms lookup);
otherwise just clear `accountName` (leaving `isVerifying` untouched). -/
def rEditAccount (s : RState) (v : String) : RState :=
  let s1 := { s with accountNumber := v,
                     errors := { s.errors with accountNumber := none } }
  if v.length = 10 then
    { s1 with isVerifying := true, accountName := "",
              pending := s.pending ++ [RTimer.verify] }
  else { s1 with accountName := "" }

/-- The bank `Select` handler: store the selection and clear its error. -/
def rEditBank (s : RState) (v : String) : RState :=
  { s with selectedBank := v, errors := { s.errors with bank := none } }

/-- The e-mail input handler: store the value and clear its error. -/
def rEditEmail (s : RState) (v : String) : RState :=
  { s with email := v, errors := { s.errors with email := none } }

/-- The phone input handler: store the value and clear its error. -/
def rEditPhone (s : RState) (v : String) : RState :=
  { s with phoneNumber := v, errors := { s.errors with phoneNumber := none } }

/-- `handleNext`: run the current step's validator and store its errors;
on success set `isProcessing` and schedule the step's timer (500 ms
bank-step transition, 800 ms final submission). -/
def rNext (s : RState) : RState :=
  match s.formType with
  | RStep.bank =>
      let e := validateBankForm s
      if rErrorsEmpty e then
        { s with errors := e, isProcessing := true,
                 pending := s.pending ++ [RTimer.advanceBank] }
      else { s with errors := e }
  | RStep.contact =>
      let e := validateEmailForm s
      if rErrorsEmpty e then
        { s with errors := e, isProcessing := true,
                 pending := s.pending ++ [RTimer.submitNav] }
      else { s with errors := e }

/-- Effect of the oldest pending timer callback on the recipient page:
the verification lookup writes the canned `accountName` and resets
`isVerifying`; the bank-step transition moves to the contact step,
clears all errors and resets `isProcessing`; the submission callback
pushes the payment route (leaving `isProcessing` true, as the code
does). -/
def rFire (s : RState) : RState :=
  match s.pending with
  | [] => s
  | RTimer.verify :: rest =>
      { s with accountName := "ODUTUGA GBEKE", isVerifying := false, pending := rest }
  | RTimer.advanceBank :: rest =>
      { s with formType := RStep.contact, errors := rNoErrors,
               isProcessing := false, pending := rest }
  | RTimer.submitNav :: rest =>
      { s with navTarget := some "/payment", pending := rest }

/-- The disabled condition of the recipient page's Next button:
`isProcessing || (formType === "bank" && isVerifying)`. -/
def nextDisabled (s : RState) : Bool :=
  s.isProcessing || (decide (s.formType = RStep.bank) && s.isVerifying)

/-- The `EXCHANGE_RATES` table of `design-tokens.ts`, keyed by the
`FROM_TO_X` strings that `utils.ts` builds. -/
def exchangeRates : List (String × ℚ) :=
  [("ETH_TO_NGN", 3500000), ("BTC_TO_NGN", 45000000), ("USDT_TO_NGN", 1600),
   ("ETH_TO_USD", 2200), ("BTC_TO_USD", 28000), ("USDT_TO_USD", 1),
   ("ETH_TO_EUR", 2000), ("BTC_TO_EUR", 25500), ("USDT_TO_EUR", 92/100)]

/-- `EXCHANGE_RATES[key]`: `none` models `undefined` for an absent key.
TypeScript's union types are erased at runtime, so the currency arguments
are modelled as arbitrary strings. -/
def lookupRate (key : String) : Option ℚ :=
  exchangeRates.lookup key

/-- JavaScript `x || d` for `x` a number-or-undefined: `undefined`, `0`
(and `NaN`, which the table cannot contain) fall through to `d`. -/
def jsOrNum (o : Option ℚ) (d : ℚ) : ℚ :=
  match o with
  | none => d
  | some x => if x = 0 then d else x

/-- `calculateExchangeRate` of `utils.ts`:
`(amount * (EXCHANGE_RATES[from_TO_to] || 0)).toFixed(2)`. -/
def calculateExchangeRate (amount : ℚ) (fromCur toCur : String) : String :=
  toFixed 2 (amount * jsOrNum (lookupRate (fromCur ++ "_TO_" ++ toCur)) 0)

/-- `calculateInverseRate` of `utils.ts`:
`(amount / (EXCHANGE_RATES[from_TO_to] || 1)).toFixed(4)`. -/
def calculateInverseRate (amount : ℚ) (fromCur toCur : String) : String :=
  toFixed 4 (amount / jsOrNum (lookupRate (fromCur ++ "_TO_" ++ toCur)) 1)

/-- C1 counterexample: issuing the pay-amount edits "1" then "2" before
the first 300 ms delay elapses does NOT keep the superseded completion
out of `receiveValue` — when the first edit's pending callback fires
(first, since both timers share the 300 ms delay), it writes "1"'s
conversion `"3500.00"` into `receiveValue`, at a point after the second
edit was issued, and that differs from "2"'s conversion `"7000.00"`. -/
theorem C1_counterexample :
    (homeRun homeInit
        [HomeEvent.editPay "1", HomeEvent.editPay "2", HomeEvent.fire]).receiveValue
      = convertPay "1"
    ∧ convertPay "1" = "3500.00"
    ∧ convertPay "2" = "7000.00"
    ∧ ¬ ("3500.00" : String) = "7000.00" :=
  ⟨rfl, by with_unfolding_all rfl, by with_unfolding_all rfl, by decide⟩

/-- C1 amended: with pay-amount edits "v₁" then "v₂" issued before the
first delay elapses, the final state — after both pending completions
have run — holds "v₂"'s conversion in `receiveValue` (the later-scheduled
callback overwrites), but the superseded first edit's completion does
transiently write "v₁"'s conversion into `receiveValue` first. -/
theorem C1_amended (v₁ v₂ : String) :
    (homeRun homeInit
        [HomeEvent.editPay v₁, HomeEvent.editPay v₂,
         HomeEvent.fire, HomeEvent.fire]).receiveValue = convertPay v₂
    ∧ (homeRun homeInit
        [HomeEvent.editPay v₁, HomeEvent.editPay v₂, HomeEvent.fire]).receiveValue
      = convertPay v₁ :=
  ⟨rfl, rfl⟩

/-- C2 counterexample: with the initial currencies payCurrency = ETH and
receiveCurrency = NGN, editing the pay amount to "2" yields `"7000.00"`
after the delay (the handler multiplies by the literal 3500), not the
rate-table result `"7000000.00"` the claim requires. -/
theorem C2_counterexample :
    homeInit.payCurrency = "ETH"
    ∧ homeInit.receiveCurrency = "NGN"
    ∧ (homeRun homeInit [HomeEvent.editPay "2", HomeEvent.fire]).receiveValue = "7000.00"
    ∧ ¬ (homeRun homeInit [HomeEvent.editPay "2", HomeEvent.fire]).receiveValue = "7000000.00" :=
  ⟨rfl, rfl, by with_unfolding_all rfl, by with_unfolding_all decide⟩

/-- C2 amended: for every pay-amount edit the recomputed receive amount
equals `(parseFloat(newValue || "0") * 3500).toFixed(2)` — the constant
3500, whatever the selected currency pair — and editing the pay amount to
"2" yields `"7000.00"` after the delay. -/
theorem C2_amended (pc rc v : String) :
    (homeRun { homeInit with payCurrency := pc, receiveCurrency := rc }
        [HomeEvent.editPay v, HomeEvent.fire]).receiveValue = convertPay v
    ∧ convertPay "2" = "7000.00" :=
  ⟨rfl, by with_unfolding_all rfl⟩

/-- C3: evaluation at the failing input.  The pay-amount edit "abc"
produces the string `"NaN"` in `receiveValue` (raw `parseFloat` yields
NaN, which `|| "0"` does not catch since only the empty string is falsy),
not the conversion of zero `"0.00"` the claim requires; the empty-string
edit is the only non-numeric input coerced to zero. -/
theorem C3_eval :
    (homeRun homeInit [HomeEvent.editPay "abc", HomeEvent.fire]).receiveValue = "NaN"
    ∧ (homeRun homeInit [HomeEvent.editPay "", HomeEvent.fire]).receiveValue = "0.00"
    ∧ ¬ ("NaN" : String) = "0.00" :=
  ⟨rfl, by with_unfolding_all rfl, by decide⟩

/-- C4 counterexample: the input "123456789x" has normalized digit length
9, yet `handleAccountNumberChange` starts verification for it (sets
`isVerifying` and schedules the lookup), because the code tests the raw
character length `value.length === 10`, not the digit count. -/
theorem C4_counterexample :
    digitCount "123456789x" = 9
    ∧ (rEditAccount rInit "123456789x").isVerifying = true
    ∧ (rEditAccount rInit "123456789x").pending = [RTimer.verify] :=
  ⟨rfl, rfl, rfl⟩

/-- C4 amended: with "normalized digit length" read as the raw character
length of the input: every edit clears `accountName`; an input of length
exactly 10 sets `isVerifying` and schedules the verification callback,
whose completion sets the canned `accountName` and resets `isVerifying`;
an input of any other length (such as an appended 11th character) leaves
`isVerifying` unchanged and schedules nothing. -/
theorem C4_amended (s : RState) (v : String) (l : List RTimer) :
    (rEditAccount s v).accountName = ""
    ∧ (rEditAccount s v).isVerifying = (if v.length = 10 then true else s.isVerifying)
    ∧ (rEditAccount s v).pending
      = (if v.length = 10 then s.pending ++ [RTimer.verify] else s.pending)
    ∧ (rFire { s with pending := RTimer.verify :: l }).accountName = "ODUTUGA GBEKE"
    ∧ (rFire { s with pending := RTimer.verify :: l }).isVerifying = false
    ∧ (rFire { s with pending := RTimer.verify :: l }).pending = l := by
  unfold rEditAccount rFire
  by_cases h : v.length = 10 <;> simp [h]

/-- C5 counterexample: a contact-step phone of 16 digits (digit-only
length 16 > 15) passes validation with no `phoneNumber` error, and so
does an 8-letter phone with digit-only length 0 < 7 — the validator
checks only the raw character length against the lower bound 7. -/
theorem C5_counterexample :
    digitCount "1234567890123456" = 16
    ∧ (validateEmailForm
        { rInit with email := "a@b.c", phoneNumber := "1234567890123456" }).phoneNumber = none
    ∧ digitCount "abcdefgh" = 0
    ∧ (validateEmailForm
        { rInit with email := "a@b.c", phoneNumber := "abcdefgh" }).phoneNumber = none :=
  ⟨rfl, rfl, rfl, rfl⟩

/-- C5 amended: contact-step phone validation fails exactly when the
phone string is empty or its raw character length is below 7; there is no
upper bound and no digit-only normalization (the digit-only [7,15] rule
exists only in the unused `utils.isValidPhone` helper). -/
theorem C5_amended (s : RState) :
    (validateEmailForm s).phoneNumber = none
      ↔ (¬ s.phoneNumber = "" ∧ 7 ≤ s.phoneNumber.length) := by
  unfold validateEmailForm
  by_cases h1 : s.phoneNumber = ""
  · simp [h1]
  · by_cases h2 : s.phoneNumber.length < 7
    · simp [h1, h2]
      try omega
    · simp [h1, h2]
      try omega

/-- C6: for every currency pair whose key is absent from the rate table,
the forward conversion of any amount is `"0.00"` (the `|| 0` fallback
makes the rate 0) and the inverse conversion divides by the `|| 1`
fallback, returning the amount itself at 4 decimals; both functions are
total, so neither direction can throw. -/
theorem C6_fallback (amount : ℚ) (fromCur toCur : String)
    (h : lookupRate (fromCur ++ "_TO_" ++ toCur) = none) :
    calculateExchangeRate amount fromCur toCur = "0.00"
    ∧ calculateInverseRate amount fromCur toCur = toFixed 4 amount := by
  unfold calculateExchangeRate calculateInverseRate
  rw [h]
  constructor
  · rw [show jsOrNum none 0 = 0 from rfl, mul_zero]
    with_unfolding_all rfl
  · rw [show jsOrNum none 1 = 1 from rfl, div_one]

/-- C6 witness: the pair DOGE → NGN is absent from the table, the forward
conversion of 5 is `"0.00"` and the inverse conversion of 5 is
`toFixed 4 5 = "5.0000"`. -/
theorem C6_fallback_witness :
    lookupRate ("DOGE" ++ "_TO_" ++ "NGN") = none
    ∧ (calculateExchangeRate 5 "DOGE" "NGN" = "0.00"
       ∧ calculateInverseRate 5 "DOGE" "NGN" = toFixed 4 5) :=
  ⟨rfl, C6_fallback 5 "DOGE" "NGN" rfl⟩

/-- C7: `handleNext` on the bank step with empty `selectedBank` and empty
`accountNumber` sets both the bank and the account-number errors and
stays on the bank step with nothing scheduled; with `selectedBank` =
"GTBank" and the 10-digit `accountNumber` "1234567890" it sets
`isProcessing` and schedules the transition, whose completion reaches the
contact step with all errors cleared and `isProcessing` reset. -/
theorem C7_gating :
    (rNext rInit).errors.bank = some "Please select a bank"
    ∧ (rNext rInit).errors.accountNumber = some "Account number is required"
    ∧ (rNext rInit).formType = RStep.bank
    ∧ (rNext rInit).isProcessing = false
    ∧ (rNext rInit).pending = []
    ∧ (rNext { rInit with selectedBank := "GTBank", accountNumber := "1234567890" }).isProcessing
      = true
    ∧ (rNext { rInit with selectedBank := "GTBank", accountNumber := "1234567890" }).pending
      = [RTimer.advanceBank]
    ∧ (rFire (rNext { rInit with selectedBank := "GTBank", accountNumber := "1234567890" })).formType
      = RStep.contact
    ∧ (rFire (rNext { rInit with selectedBank := "GTBank", accountNumber := "1234567890" })).errors
      = rNoErrors
    ∧ (rFire (rNext { rInit with selectedBank := "GTBank", accountNumber := "1234567890" })).isProcessing
      = false :=
  ⟨rfl, rfl, rfl, rfl, rfl, rfl, rfl, rfl, rfl, rfl⟩

/-- C8: evaluation at the failing input.  In the freshly created
recipient-details state — before any event, hence before any verification
has completed — `accountName` already holds the canned value
`"ODUTUGA GBEKE"` instead of being empty, contradicting the page's own
"Will appear after verification" placeholder. -/
theorem C8_eval :
    rInit.accountName = "ODUTUGA GBEKE" ∧ ¬ rInit.accountName = "" :=
  ⟨rfl, by decide⟩

/-- C9: per-field error framing.  Each field edit replaces the error
record by the same record with exactly that field's entry removed
(clearing only its own error, preserving every other entry), and the
events that do not validate — amount edits and currency changes — leave
the error record untouched; errors are only written by the
advance/submit handlers. -/
theorem C9_frame (s : RState) (hs : HomeState) (v : String) :
    (rEditBank s v).errors = { s.errors with bank := none }
    ∧ (rEditAccount s v).errors = { s.errors with accountNumber := none }
    ∧ (rEditEmail s v).errors = { s.errors with email := none }
    ∧ (rEditPhone s v).errors = { s.errors with phoneNumber := none }
    ∧ (homeStep hs (HomeEvent.selectPayFrom v)).errors = { hs.errors with payFrom := none }
    ∧ (homeStep hs (HomeEvent.selectPayTo v)).errors = { hs.errors with payTo := none }
    ∧ (homeStep hs (HomeEvent.editPay v)).errors = hs.errors
    ∧ (homeStep hs (HomeEvent.editReceive v)).errors = hs.errors
    ∧ (homeStep hs (HomeEvent.setPayCurrency v)).errors = hs.errors
    ∧ (homeStep hs (HomeEvent.setReceiveCurrency v)).errors = hs.errors := by
  refine ⟨rfl, ?_, rfl, rfl, rfl, rfl, rfl, rfl, rfl, rfl⟩
  unfold rEditAccount
  by_cases h : v.length = 10 <;> simp [h]

/-- C10: in every state of the recipient flow, the Next control is
disabled exactly when `isProcessing` is true or when `isVerifying` is
true while the current step is the bank step, and enabled otherwise. -/
theorem C10_disabled (s : RState) :
    nextDisabled s = true
      ↔ (s.isProcessing = true ∨ (s.formType = RStep.bank ∧ s.isVerifying = true)) := by
  unfold nextDisabled
  simp
